import Mathlib

/-!
Verification of the Currency Converter Pro service worker (`sw.js`).

The service worker is embedded shallowly: the cache storage becomes an
association list of named generations, each an association list from canonical
keys to stored responses; the network and the platform clock become explicit
parameters; each event handler becomes a pure function from those parameters
and the current store to a result and the updated store.  JavaScript `Date`
arithmetic (including the `NaN` produced by an unparseable date string and the
epoch produced by `new Date(null)`) is modelled by an explicit `JsNum` type
whose comparisons follow IEEE semantics: any comparison against `NaN` is false.
-/

namespace SW

/-- A JavaScript number that may be `NaN` (produced by `getTime()` on an
invalid `Date`). -/
inductive JsNum where
  | num (v : Int)
  | nan
deriving DecidableEq, Repr

/-- `now - t` where `t` may be `NaN`; subtraction propagates `NaN`. -/
def JsNum.subFrom (now : Int) : JsNum → JsNum
  | num t => num (now - t)
  | nan => nan

/-- JavaScript `>` on a possibly-`NaN` left operand: every comparison with
`NaN` evaluates to `false`. -/
def JsNum.gt : JsNum → Int → Bool
  | num v, y => decide (v > y)
  | nan, _ => false

/-- Models `Date.prototype.toISOString` of the platform: an injective rendering
of the epoch-milliseconds timestamp.  Only injectivity and round-tripping with
`jsDateParse` matter to the worker's logic, not the concrete ISO-8601 text. -/
def jsToIsoString (t : Int) : String := toString t

/-- Accumulate a digit string into a number; any non-digit character makes the
whole string unparseable. -/
def natOfDigitsAux : List Char → Nat → Option Nat
  | [], acc => some acc
  | ch :: rest, acc =>
      if ch.isDigit then natOfDigitsAux rest (acc * 10 + (ch.toNat - 48))
      else none

/-- A non-empty all-digit string as a number, `none` otherwise. -/
def natOfDigits : List Char → Option Nat
  | [] => none
  | chs => natOfDigitsAux chs 0

/-- Models `new Date(s).getTime()` for a string argument: a string our
rendering produced parses back to its timestamp; anything unparseable yields
`NaN`, exactly as an invalid `Date` does. -/
def jsDateParse (s : String) : JsNum :=
  match s.data with
  | '-' :: rest =>
      match natOfDigits rest with
      | some n => JsNum.num (-(n : Int))
      | none => JsNum.nan
  | chs =>
      match natOfDigits chs with
      | some n => JsNum.num (n : Int)
      | none => JsNum.nan

/-- Models `new Date(headers.get(k)).getTime()`: `headers.get` returns `null`
when the header is absent, and `new Date(null)` is the epoch, so a missing
header yields timestamp `0`, not `NaN`. -/
def jsDateGetTime (h : Option String) : JsNum :=
  match h with
  | none => JsNum.num 0
  | some s => jsDateParse s

/-- A stored or fetched HTTP response: status, status text, headers, body, and
`response.type` (the string "basic" for readable responses, "opaque" for
cross-origin `no-cors` responses, whose status the platform reports as 0). -/
structure Response where
  status : Nat
  statusText : String
  headers : List (String × String)
  body : String
  rtype : String := "basic"
deriving DecidableEq, Repr

/-- `response.ok`: status in the 200-299 range. -/
def Response.ok (r : Response) : Bool :=
  decide (200 ≤ r.status) && decide (r.status < 300)

/-- `headers.get(k)`: first entry with the given name, if any. -/
def headersGet : List (String × String) → String → Option String
  | [], _ => none
  | (k0, v) :: rest, k => if k0 == k then some v else headersGet rest k

/-- `headers.set(k, v)`: replace an existing entry or append a new one. -/
def headersSet : List (String × String) → String → String → List (String × String)
  | [], k, v => [(k, v)]
  | (k0, v0) :: rest, k, v =>
      if k0 == k then (k, v) :: rest else (k0, v0) :: headersSet rest k v

/-- One cache generation: canonical key to stored response. -/
abbrev Cache := List (String × Response)

/-- `cache.match(key)`: first stored entry for the key. -/
def cacheMatch : Cache → String → Option Response
  | [], _ => none
  | (k0, r) :: rest, k => if k0 == k then some r else cacheMatch rest k

/-- `cache.put(key, r)`: overwrite the entry for the key, or append it. -/
def cachePut : Cache → String → Response → Cache
  | [], k, r => [(k, r)]
  | (k0, r0) :: rest, k, r =>
      if k0 == k then (k, r) :: rest else (k0, r0) :: cachePut rest k r

/-- The CacheStorage: named generations in creation order. -/
abbrev CacheStore := List (String × Cache)

/-- `caches.open(name)`: create the generation if it does not exist. -/
def storeOpen : CacheStore → String → CacheStore
  | [], n => [(n, [])]
  | (m, c) :: rest, n =>
      if m == n then (m, c) :: rest else (m, c) :: storeOpen rest n

/-- The contents of a named generation (empty if absent). -/
def storeGet : CacheStore → String → Cache
  | [], _ => []
  | (m, c) :: rest, n => if m == n then c else storeGet rest n

/-- Replace the contents of an existing generation. -/
def storeSet : CacheStore → String → Cache → CacheStore
  | [], _, _ => []
  | (m, c) :: rest, n, cache =>
      if m == n then (n, cache) :: rest else (m, c) :: storeSet rest n cache

/-- `caches.open(name)` followed by `cache.put(key, r)`. -/
def storePut (s : CacheStore) (n k : String) (r : Response) : CacheStore :=
  storeSet (storeOpen s n) n (cachePut (storeGet (storeOpen s n) n) k r)

/-- `caches.delete(name)`: remove the generation. -/
def storeDelete (s : CacheStore) (n : String) : CacheStore :=
  s.filter (fun p => p.1 != n)

/-- `caches.keys()`: the generation names in creation order. -/
def storeKeys (s : CacheStore) : List String := s.map Prod.fst

/-- `caches.match(key)`: search every generation in creation order. -/
def cachesMatch : CacheStore → String → Option Response
  | [], _ => none
  | (_, c) :: rest, k =>
      match cacheMatch c k with
      | some r => some r
      | none => cachesMatch rest k

/-- `const CACHE_NAME = 'currency-converter-pro-v3'` (static generation). -/
def CACHE_NAME : String := "currency-converter-pro-v3"

/-- `const RUNTIME_CACHE = 'currency-converter-runtime-v3'` (API generation). -/
def RUNTIME_CACHE : String := "currency-converter-runtime-v3"

/-- `const API_CACHE_EXPIRY_DAYS = 1`. -/
def API_CACHE_EXPIRY_DAYS : Nat := 1

/-- The expiry window in milliseconds, as computed inside `handleApiRequest`:
`API_CACHE_EXPIRY_DAYS * 24 * 60 * 60 * 1000`. -/
def apiExpiryMs : Int := (API_CACHE_EXPIRY_DAYS : Int) * 24 * 60 * 60 * 1000

/-- The `coreFiles` install list (all-or-nothing). -/
def coreFiles : List String :=
  ["/", "/index.html", "/style.css", "/script.js", "/manifest.json"]

/-- The `ASSET_PATHS` install list (best-effort local icons). -/
def ASSET_PATHS : List String :=
  ["/assets/favicon.ico",
   "/assets/icon-16x16.png",
   "/assets/icon-32x32.png",
   "/assets/icon-72x72.png",
   "/assets/icon-96x96.png",
   "/assets/icon-128x128.png",
   "/assets/icon-144x144.png",
   "/assets/icon-152x152.png",
   "/assets/icon-180x180.png",
   "/assets/icon-192x192.png",
   "/assets/icon-384x384.png",
   "/assets/icon-512x512.png"]

/-- The `cdnFiles` install list (best-effort cross-origin resources). -/
def cdnFiles : List String :=
  ["https://fonts.googleapis.com/css2?family=Inter:wght@300;400;500;600;700&display=swap",
   "https://cdn.jsdelivr.net/npm/bootstrap@5.3.0/dist/css/bootstrap.min.css"]

/-- The name of the stale-marker header. -/
def swCachedDate : String := "sw-cached-date"

/-- The single endpoint refreshed by `syncCurrencyRates`. -/
def usdEndpoint : String := "https://open.er-api.com/v6/latest/USD"

/-- Outcome of a `fetch` call: a resolved response or a rejected promise
(network error, CORS failure, abort). -/
inductive FetchResult where
  | success (r : Response)
  | failure
deriving DecidableEq, Repr

/-- `true` iff the fetch resolved with an OK response (the criterion
`cache.addAll` applies to each core file). -/
def fetchOk : FetchResult → Bool
  | FetchResult.success r => r.ok
  | FetchResult.failure => false

/-- Outcome of a fetch-event handler: a resolved response, or a rejection that
surfaces to the page as an uncaught network error. -/
inductive HandlerResult where
  | resolved (r : Response)
  | rejected
deriving DecidableEq, Repr

/-- An intercepted GET request: the parts of `new URL(request.url)` the worker
reads, plus `request.destination` and the navigation-mode flag. -/
structure Request where
  origin : String
  pathname : String
  search : String
  destination : String := ""
  navigate : Bool := false
deriving DecidableEq, Repr

/-- `request.url` as a string: origin, path, query. -/
def Request.url (r : Request) : String := r.origin ++ r.pathname ++ r.search

/-- The canonical key `url.origin + url.pathname + url.search` computed by
`handleApiRequest`. -/
def apiCacheKey (r : Request) : String := r.origin ++ r.pathname ++ r.search

/-- The synthesized offline JSON body,
`JSON.stringify({error: 'Offline', message: '...'})`. -/
def offlineJsonBody : String :=
  "\x7b\"error\":\"Offline\",\"message\":\"No internet connection and no cached data available\"\x7d"

/-- The synthesized terminal offline response: 503, JSON content type,
no-cache. -/
def offlineResponse : Response :=
  { status := 503
    statusText := ""
    headers := [("Content-Type", "application/json"), ("Cache-Control", "no-cache")]
    body := offlineJsonBody }

/-- `handleApiRequest` (network-first with expiry).  Parameters: the network
outcome for this request, the wall-clock time in epoch milliseconds (used both
for the staleness comparison and for stamping the fresh entry), the store, and
the request.  Returns the response given to the page and the updated store. -/
def handleApiRequest (net : FetchResult) (now : Int) (store : CacheStore)
    (req : Request) : Response × CacheStore :=
  let store := storeOpen store RUNTIME_CACHE
  let cacheKey := apiCacheKey req
  let cached0 := cacheMatch (storeGet store RUNTIME_CACHE) cacheKey
  -- stale check: null out the cached response when its age exceeds the window
  let cachedResponse : Option Response :=
    match cached0 with
    | some c =>
        let lastCached := jsDateGetTime (headersGet c.headers swCachedDate)
        let expiryTime : Int := (API_CACHE_EXPIRY_DAYS : Int) * 24 * 60 * 60 * 1000
        if (JsNum.subFrom now lastCached).gt expiryTime then none else some c
    | none => none
  match net with
  | FetchResult.success networkResponse =>
      if networkResponse.ok then
        -- clone, stamp sw-cached-date with the current time, put, return live
        let headers := headersSet networkResponse.headers swCachedDate (jsToIsoString now)
        let stamped : Response :=
          { status := networkResponse.status
            statusText := networkResponse.statusText
            headers := headers
            body := networkResponse.body }
        (networkResponse, storePut store RUNTIME_CACHE cacheKey stamped)
      else
        -- non-OK status throws; the catch falls back to the (unexpired) cache
        match cachedResponse with
        | some c => (c, store)
        | none => (offlineResponse, store)
  | FetchResult.failure =>
      match cachedResponse with
      | some c => (c, store)
      | none => (offlineResponse, store)

/-- `handleStaticRequest` (cache-first).  A cache hit is returned directly; a
miss goes to network, caching only OK responses; a network error resolves to a
404 placeholder for images and rejects for every other destination. -/
def handleStaticRequest (net : FetchResult) (store : CacheStore)
    (req : Request) : HandlerResult × CacheStore :=
  match cachesMatch store (Request.url req) with
  | some cachedResponse => (HandlerResult.resolved cachedResponse, store)
  | none =>
      match net with
      | FetchResult.success networkResponse =>
          if networkResponse.ok then
            (HandlerResult.resolved networkResponse,
              storePut store CACHE_NAME (Request.url req) networkResponse)
          else
            (HandlerResult.resolved networkResponse, store)
      | FetchResult.failure =>
          if req.destination == "image" then
            (HandlerResult.resolved
              { status := 404, statusText := "Offline", headers := [], body := "" },
              store)
          else
            (HandlerResult.rejected, store)

/-- The inline offline HTML document synthesized by `handleNavigationRequest`
(the template literal of `sw.js`, verbatim). -/
def offlineHtmlBody : String :=
  "\n" ++
  "    <!DOCTYPE html>\n" ++
  "    <html>\n" ++
  "      <head>\n" ++
  "        <title>Offline - Currency Converter Pro</title>\n" ++
  "        <meta name=\"viewport\" content=\"width=device-width, initial-scale=1.0\">\n" ++
  "        <style>\n" ++
  "          body \x7b font-family: system-ui, sans-serif; text-align: center; padding: 2rem; background: #f5f5f5; \x7d\n" ++
  "          .offline-container \x7b max-width: 400px; margin: 0 auto; background: white; padding: 2rem; border-radius: 8px; box-shadow: 0 2px 10px rgba(0,0,0,0.1); \x7d\n" ++
  "          .icon \x7b font-size: 4rem; margin-bottom: 1rem; \x7d\n" ++
  "          h1 \x7b color: #333; margin-bottom: 1rem; \x7d\n" ++
  "          p \x7b color: #666; margin-bottom: 1.5rem; \x7d\n" ++
  "          .retry-btn \x7b background: #6366f1; color: white; border: none; padding: 0.75rem 1.5rem; border-radius: 6px; cursor: pointer; font-size: 1rem; \x7d\n" ++
  "          .retry-btn:hover \x7b background: #4f46e5; \x7d\n" ++
  "        </style>\n" ++
  "      </head>\n" ++
  "      <body>\n" ++
  "        <div class=\"offline-container\">\n" ++
  "          <div class=\"icon\">ðŸ“±</div>\n" ++
  "          <h1>You\x27re Offline</h1>\n" ++
  "          <p>Currency Converter Pro is not available without an internet connection. Please check your connection and try again.</p>\n" ++
  "          <button class=\"retry-btn\" onclick=\"window.location.reload()\">Retry</button>\n" ++
  "        </div>\n" ++
  "      </body>\n" ++
  "    </html>\n" ++
  "  "

/-- The synthesized offline navigation document: `new Response(html,
  \x7bheaders: \x7b'Content-Type': 'text/html'\x7d\x7d)` (status defaults to 200). -/
def offlineHtmlResponse : Response :=
  { status := 200
    statusText := ""
    headers := [("Content-Type", "text/html")]
    body := offlineHtmlBody }

/-- `handleNavigationRequest`: network first, return only an OK response; then
the cached root document; then the inline offline page. -/
def handleNavigationRequest (net : FetchResult) (store : CacheStore) :
    Response × CacheStore :=
  let fromNet : Option Response :=
    match net with
    | FetchResult.success r => if r.ok then some r else none
    | FetchResult.failure => none
  match fromNet with
  | some r => (r, store)
  | none =>
      match cachesMatch store "/" with
      | some c => (c, store)
      | none => (offlineHtmlResponse, store)

/-- `handleNetworkRequest` (Other class): fetch verbatim; a failure is
rethrown to the page. -/
def handleNetworkRequest (net : FetchResult) : HandlerResult :=
  match net with
  | FetchResult.success r => HandlerResult.resolved r
  | FetchResult.failure => HandlerResult.rejected

/-- The four request classes distinguished by the fetch listener. -/
inductive RequestClass where
  | api
  | static
  | navigation
  | other
deriving DecidableEq, Repr

/-- Whether the pattern is an initial run of the text. -/
def charsLead : List Char → List Char → Bool
  | [], _ => true
  | _ :: _, [] => false
  | a :: as, b :: bs => a == b && charsLead as bs

/-- Whether the pattern occurs anywhere in the text. -/
def charsContain (pat : List Char) : List Char → Bool
  | [] => pat.isEmpty
  | b :: bs => charsLead pat (b :: bs) || charsContain pat bs

/-- `API_CACHE_PATTERNS.some(p => p.test(url))`: the single pattern
`https:\/\/open\.er-api\.com\/v6\/latest\/.*` is unanchored, so the test
succeeds exactly when the literal endpoint text occurs somewhere in the URL
(the trailing wildcard matches anything, including nothing). -/
def apiPatternTest (url : String) : Bool :=
  charsContain ("https://open.er-api.com/v6/latest/").data url.data

/-- The fetch-listener dispatch order for a GET request: API pattern first,
then the static-origin allow list (same origin or one of three CDN origins),
then the navigation-mode flag, then the network-only default. -/
def classify (selfOrigin : String) (req : Request) : RequestClass :=
  if apiPatternTest (Request.url req) then RequestClass.api
  else if req.origin == selfOrigin
      || req.origin == "https://fonts.googleapis.com"
      || req.origin == "https://fonts.gstatic.com"
      || req.origin == "https://cdn.jsdelivr.net" then RequestClass.static
  else if req.navigate then RequestClass.navigation
  else RequestClass.other

/-- The fetch event for an intercepted GET request: classify, then run the
class's handler.  `handleApiRequest` and `handleNavigationRequest` always
resolve; `handleStaticRequest` and `handleNetworkRequest` may reject. -/
def fetchEvent (selfOrigin : String) (net : FetchResult) (now : Int)
    (store : CacheStore) (req : Request) : HandlerResult × CacheStore :=
  match classify selfOrigin req with
  | RequestClass.api =>
      let r := handleApiRequest net now store req
      (HandlerResult.resolved r.1, r.2)
  | RequestClass.static => handleStaticRequest net store req
  | RequestClass.navigation =>
      let r := handleNavigationRequest net store
      (HandlerResult.resolved r.1, r.2)
  | RequestClass.other => (handleNetworkRequest net, store)

/-- One best-effort install fetch of `resource`: cross-origin resources
(`startsWith 'http'`) are requested in `no-cors` mode; the response is stored
when it is OK or opaque; a non-OK non-opaque response and a network failure
are both swallowed, leaving the store unchanged. -/
def bestEffortStep (net : String → Bool → FetchResult) (s : CacheStore)
    (resource : String) : CacheStore :=
  let noCorsMode := resource.startsWith "http"
  match net resource noCorsMode with
  | FetchResult.success response =>
      if response.ok || response.rtype == "opaque" then
        storePut s CACHE_NAME resource response
      else s
  | FetchResult.failure => s

/-- The install event handler.  `net url noCors` is the fetch oracle.  The
core files go through `cache.addAll` (all requests in default mode; the batch
rejects, and installation aborts, unless every response is OK); the asset and
CDN files are then fetched best-effort.  `none` means the `waitUntil` promise
rejected and the new version never installs. -/
def installEvent (net : String → Bool → FetchResult) (store : CacheStore) :
    Option CacheStore :=
  let store := storeOpen store CACHE_NAME
  if coreFiles.all (fun f => fetchOk (net f false)) then
    let store := coreFiles.foldl (fun s f =>
      match net f false with
      | FetchResult.success r => storePut s CACHE_NAME f r
      | FetchResult.failure => s) store
    some ((ASSET_PATHS ++ cdnFiles).foldl (bestEffortStep net) store)
  else
    none

/-- Result of the activate event: the store after deletions, whether
`clients.claim()` ran, and whether the `waitUntil` promise fulfilled (the
final `.catch` swallows every error, so it always does). -/
structure ActivateResult where
  store : CacheStore
  claimed : Bool
  completed : Bool
deriving DecidableEq, Repr

/-- The activate event handler.  `delOk n` tells whether `caches.delete(n)`
fulfils.  Every old generation (neither `CACHE_NAME` nor `RUNTIME_CACHE`) is
deleted; the deletions run under one `Promise.all`, and `clients.claim()` is
chained after it, before the final `.catch` — so a single rejected deletion
skips the claim while the handler still completes. -/
def activateEvent (delOk : String → Bool) (store : CacheStore) : ActivateResult :=
  let cacheNames := storeKeys store
  let oldNames := cacheNames.filter (fun n => n != CACHE_NAME && n != RUNTIME_CACHE)
  let store := oldNames.foldl (fun s n => if delOk n then storeDelete s n else s) store
  { store := store
    claimed := oldNames.all delOk
    completed := true }

/-- `syncCurrencyRates`: fetch the USD endpoint; on an OK response, put the
clone into the runtime generation under the endpoint URL — without adding any
header.  Every failure is swallowed. -/
def syncCurrencyRates (net : FetchResult) (store : CacheStore) : CacheStore :=
  match net with
  | FetchResult.success response =>
      if response.ok then
        storePut store RUNTIME_CACHE usdEndpoint response
      else store
  | FetchResult.failure => store

/-- A postMessage notification sent to one client. -/
structure Msg where
  dest : Nat
  mtype : String
deriving DecidableEq, Repr

/-- `updateCache` (the `CACHE_UPDATE` command): delete the runtime generation,
refresh via `syncCurrencyRates`, then notify every client with
`CACHE_UPDATED`.  `delFail` models `caches.delete(RUNTIME_CACHE)` rejecting,
which the surrounding `try` catches before any notification. -/
def updateCache (delFail : Bool) (net : FetchResult) (store : CacheStore)
    (clients : List Nat) : CacheStore × List Msg :=
  if delFail then (store, [])
  else
    let store := storeDelete store RUNTIME_CACHE
    let store := syncCurrencyRates net store
    (store, clients.map (fun c => { dest := c, mtype := "CACHE_UPDATED" }))

/-- The body of `clearCache` up to the `catch`: enumerate generation names
(`keysFail` models `caches.keys()` rejecting), delete each (`delOk n` tells
whether `caches.delete(n)` fulfils; the deletions that fulfil take effect even
when another rejects, since `Promise.all` starts them all), and post
`CACHE_CLEARED` to every client only when nothing rejected.  The final `Bool`
reports whether an error was thrown into the `catch`. -/
def clearCacheTry (keysFail : Bool) (delOk : String → Bool) (store : CacheStore)
    (clients : List Nat) : CacheStore × List Msg × Bool :=
  if keysFail then (store, [], true)
  else
    let cacheNames := storeKeys store
    let store := cacheNames.foldl (fun s n => if delOk n then storeDelete s n else s) store
    if cacheNames.all delOk then
      (store, clients.map (fun c => { dest := c, mtype := "CACHE_CLEARED" }), false)
    else
      (store, [], true)

/-- Result of `clearCache`: the store, the notifications posted, and whether
the returned promise rejected (never — the `catch` only logs). -/
structure ClearResult where
  store : CacheStore
  messages : List Msg
  rejected : Bool
deriving DecidableEq, Repr

/-- `clearCache` (the `CLEAR_CACHE` command): the `try` body with every error
caught and logged, so the promise never rejects. -/
def clearCache (keysFail : Bool) (delOk : String → Bool) (store : CacheStore)
    (clients : List Nat) : ClearResult :=
  let r := clearCacheTry keysFail delOk store clients
  { store := r.1, messages := r.2.1, rejected := false }

/-! ### Helper lemmas about the store operations -/

lemma storeGet_storeOpen (s : CacheStore) (n : String) :
    storeGet (storeOpen s n) n = storeGet s n := by
  induction s with
  | nil => simp [storeOpen, storeGet]
  | cons p rest ih =>
    obtain ⟨m, c⟩ := p
    by_cases h : m = n
    · simp [storeOpen, storeGet, h]
    · simp [storeOpen, storeGet, h, ih]

lemma mem_storeKeys_storeOpen (s : CacheStore) (n : String) :
    n ∈ storeKeys (storeOpen s n) := by
  induction s with
  | nil => simp [storeOpen, storeKeys]
  | cons p rest ih =>
    obtain ⟨m, c⟩ := p
    by_cases h : m = n
    · simp [storeOpen, storeKeys, h]
    · simp only [storeOpen, storeKeys, List.map_cons, List.mem_cons] at ih ⊢
      rw [if_neg (by simpa using h)]
      simp only [List.map_cons, List.mem_cons]
      exact Or.inr ih

lemma storeGet_storeSet_self (s : CacheStore) (n : String) (cache : Cache)
    (h : n ∈ storeKeys s) :
    storeGet (storeSet s n cache) n = cache := by
  induction s with
  | nil => simp [storeKeys] at h
  | cons p rest ih =>
    obtain ⟨m, c⟩ := p
    by_cases hm : m = n
    · simp [storeSet, storeGet, hm]
    · have h' : n ∈ storeKeys rest := by
        simp only [storeKeys, List.map_cons, List.mem_cons] at h
        rcases h with h | h
        · exact absurd h.symm hm
        · exact h
      simp [storeSet, storeGet, hm, ih h']

lemma storeGet_storePut_self (s : CacheStore) (n k : String) (r : Response) :
    storeGet (storePut s n k r) n = cachePut (storeGet s n) k r := by
  unfold storePut
  rw [storeGet_storeSet_self _ _ _ (mem_storeKeys_storeOpen s n), storeGet_storeOpen]

lemma cacheMatch_cachePut_self (c : Cache) (k : String) (r : Response) :
    cacheMatch (cachePut c k r) k = some r := by
  induction c with
  | nil => simp [cachePut, cacheMatch]
  | cons p rest ih =>
    obtain ⟨k0, r0⟩ := p
    by_cases h : k0 = k
    · simp [cachePut, cacheMatch, h]
    · simp [cachePut, cacheMatch, h, ih]

lemma headersGet_headersSet_self (hs : List (String × String)) (k v : String) :
    headersGet (headersSet hs k v) k = some v := by
  induction hs with
  | nil => simp [headersSet, headersGet]
  | cons p rest ih =>
    obtain ⟨k0, v0⟩ := p
    by_cases h : k0 = k
    · simp [headersSet, headersGet, h]
    · simp [headersSet, headersGet, h, ih]

lemma foldl_delete_nil (delOk : String → Bool) (hdel : ∀ n, delOk n = true)
    (l : List String) (s : CacheStore) (h : ∀ p ∈ s, p.1 ∈ l) :
    l.foldl (fun s n => if delOk n then storeDelete s n else s) s = [] := by
  induction l generalizing s with
  | nil =>
    cases s with
    | nil => rfl
    | cons p rest => exact absurd (h p (List.mem_cons_self p rest)) (List.not_mem_nil p.1)
  | cons n t ih =>
    simp only [List.foldl_cons, hdel n, if_true]
    apply ih
    intro p hp
    have hmem : p ∈ s := List.mem_of_mem_filter hp
    have hne : p.1 ≠ n := by simpa using List.of_mem_filter hp
    have hpl := h p hmem
    simp only [List.mem_cons] at hpl
    rcases hpl with h1 | h1
    · exact absurd h1 hne
    · exact h1

/-! ### Claim theorems -/

/-- C1: for an API request whose cached entry's recorded age exceeds the
expiry window (default 1 day), when the network fetch fails or resolves with a
non-OK status, `handleApiRequest` returns the synthesized 503 offline JSON
response — never the expired cached entry. -/
theorem api_expired_entry_never_served (net : FetchResult) (now : Int)
    (store : CacheStore) (req : Request) (c : Response) (t : Int)
    (hc : cacheMatch (storeGet store RUNTIME_CACHE) (apiCacheKey req) = some c)
    (ht : jsDateGetTime (headersGet c.headers swCachedDate) = JsNum.num t)
    (hage : now - t > apiExpiryMs)
    (hnet : ∀ r, net = FetchResult.success r → r.ok = false) :
    (handleApiRequest net now store req).1 = offlineResponse := by
  have hcond : (JsNum.subFrom now (jsDateGetTime (headersGet c.headers swCachedDate))).gt
      ((API_CACHE_EXPIRY_DAYS : Int) * 24 * 60 * 60 * 1000) = true := by
    rw [ht]
    simp only [JsNum.subFrom, JsNum.gt, decide_eq_true_eq]
    simpa [apiExpiryMs] using hage
  cases net with
  | failure => simp [handleApiRequest, storeGet_storeOpen, hc, hcond]
  | success r =>
    have hok := hnet r rfl
    simp [handleApiRequest, storeGet_storeOpen, hc, hcond, hok]

/-- C1 witness: Scenario B at concrete values — entry stamped at epoch 0, the
clock two days (172800000 ms) later, network down — yields the 503 offline
response. -/
theorem api_expired_entry_never_served_witness :
    (handleApiRequest FetchResult.failure 172800000
        [(RUNTIME_CACHE,
          [("https://open.er-api.com/v6/latest/USD",
            { status := 200, statusText := "OK",
              headers := [(swCachedDate, jsToIsoString 0)], body := "rates0" })])]
        { origin := "https://open.er-api.com", pathname := "/v6/latest/USD",
          search := "" }).1 = offlineResponse :=
  api_expired_entry_never_served _ _ _ _
    { status := 200, statusText := "OK",
      headers := [(swCachedDate, jsToIsoString 0)], body := "rates0" }
    0 (by decide) (by decide) (by decide)
    (fun r h => FetchResult.noConfusion h)

/-- C7: when the network fetch resolves with an OK status, the live network
response is returned to the caller, and the entry stored under the canonical
key — overwriting any prior entry — is that response stamped with the
`sw-cached-date` stale marker holding the wall-clock write time. -/
theorem api_success_returns_live_and_stamps (r : Response) (now : Int)
    (store : CacheStore) (req : Request) (hok : r.ok = true) :
    (handleApiRequest (FetchResult.success r) now store req).1 = r ∧
    cacheMatch (storeGet (handleApiRequest (FetchResult.success r) now store req).2
        RUNTIME_CACHE) (apiCacheKey req) =
      some { status := r.status, statusText := r.statusText,
             headers := headersSet r.headers swCachedDate (jsToIsoString now),
             body := r.body } ∧
    headersGet (headersSet r.headers swCachedDate (jsToIsoString now)) swCachedDate =
      some (jsToIsoString now) := by
  refine ⟨?_, ?_, headersGet_headersSet_self _ _ _⟩
  · simp [handleApiRequest, hok]
  · simp [handleApiRequest, hok, storeGet_storePut_self, cacheMatch_cachePut_self]

/-- C7 witness: a concrete OK response over a store already holding an entry
for the key is returned live, and the stored entry is the stamped response. -/
theorem api_success_returns_live_and_stamps_witness :
    (handleApiRequest
        (FetchResult.success
          { status := 200, statusText := "OK", headers := [], body := "fresh" })
        86400
        [(RUNTIME_CACHE,
          [("https://open.er-api.com/v6/latest/USD",
            { status := 200, statusText := "OK", headers := [], body := "old" })])]
        { origin := "https://open.er-api.com", pathname := "/v6/latest/USD",
          search := "" }).1 =
      { status := 200, statusText := "OK", headers := [], body := "fresh" } :=
  (api_success_returns_live_and_stamps _ _ _ _ (by decide)).1

/-- C2 counterexample: the background-sync refresh (`syncCurrencyRates`) puts
the fetched response into the runtime generation verbatim, so the stored entry
carries no `sw-cached-date` header — the claimed invariant fails on that write
path. -/
theorem sync_write_lacks_stale_marker :
    cacheMatch
        (storeGet
          (syncCurrencyRates
            (FetchResult.success
              { status := 200, statusText := "OK",
                headers := [("Content-Type", "application/json")], body := "rates" })
            [])
          RUNTIME_CACHE) usdEndpoint =
      some { status := 200, statusText := "OK",
             headers := [("Content-Type", "application/json")], body := "rates" } ∧
    headersGet
        [("Content-Type", "application/json")] swCachedDate = none := by
  constructor
  · decide
  · decide

/-- C2 amended: the network-first API write path stamps every entry it stores
with `sw-cached-date` at write time, but the background-sync / `CACHE_UPDATE`
refresh path stores the fetched response verbatim, adding no header. -/
theorem stale_marker_write_paths (r : Response) (now : Int)
    (store : CacheStore) (req : Request) (hok : r.ok = true) :
    (cacheMatch (storeGet (handleApiRequest (FetchResult.success r) now store req).2
          RUNTIME_CACHE) (apiCacheKey req) =
        some { status := r.status, statusText := r.statusText,
               headers := headersSet r.headers swCachedDate (jsToIsoString now),
               body := r.body } ∧
      headersGet (headersSet r.headers swCachedDate (jsToIsoString now)) swCachedDate =
        some (jsToIsoString now)) ∧
    cacheMatch (storeGet (syncCurrencyRates (FetchResult.success r) store) RUNTIME_CACHE)
        usdEndpoint = some r := by
  refine ⟨⟨?_, headersGet_headersSet_self _ _ _⟩, ?_⟩
  · simp [handleApiRequest, hok, storeGet_storePut_self, cacheMatch_cachePut_self]
  · simp [syncCurrencyRates, hok, storeGet_storePut_self, cacheMatch_cachePut_self]

/-- C2 amended witness: both write paths at a concrete OK response. -/
theorem stale_marker_write_paths_witness :
    cacheMatch
        (storeGet
          (syncCurrencyRates
            (FetchResult.success
              { status := 200, statusText := "OK", headers := [], body := "r1" }) [])
          RUNTIME_CACHE) usdEndpoint =
      some { status := 200, statusText := "OK", headers := [], body := "r1" } :=
  (stale_marker_write_paths
    { status := 200, statusText := "OK", headers := [], body := "r1" }
    7 [] { origin := "https://open.er-api.com", pathname := "/v6/latest/USD",
           search := "" } (by decide)).2

/-- C3 counterexample: a cached entry whose `sw-cached-date` value is
unparseable is NOT treated as expired — `NaN` age comparisons are false — so
on network failure it IS served as the offline fallback rather than the 503
response, contradicting the claim. -/
theorem unparseable_marker_entry_served :
    (handleApiRequest FetchResult.failure 1700000000000
        [(RUNTIME_CACHE,
          [("https://open.er-api.com/v6/latest/USD",
            { status := 200, statusText := "OK",
              headers := [(swCachedDate, "not-a-date")], body := "old rates" })])]
        { origin := "https://open.er-api.com", pathname := "/v6/latest/USD",
          search := "" }).1 =
      { status := 200, statusText := "OK",
        headers := [(swCachedDate, "not-a-date")], body := "old rates" } ∧
    ({ status := 200, statusText := "OK",
       headers := [(swCachedDate, "not-a-date")], body := "old rates" } : Response) ≠
      offlineResponse := by
  constructor
  · decide
  · decide

/-- C3 amended: a missing stale marker parses as the epoch (`new Date(null)`),
so the entry is treated as expired whenever the clock exceeds the expiry
window; an unparseable marker yields a `NaN` age whose comparison is false, so
the entry is treated as fresh and is served as the offline fallback. -/
theorem stale_marker_missing_vs_unparseable (now : Int) (store : CacheStore)
    (req : Request) (c : Response)
    (hc : cacheMatch (storeGet store RUNTIME_CACHE) (apiCacheKey req) = some c) :
    (headersGet c.headers swCachedDate = none → now > apiExpiryMs →
        (handleApiRequest FetchResult.failure now store req).1 = offlineResponse) ∧
    (∀ s, headersGet c.headers swCachedDate = some s → jsDateParse s = JsNum.nan →
        (handleApiRequest FetchResult.failure now store req).1 = c) := by
  constructor
  · intro hnone hnow
    have hcond : (JsNum.subFrom now (jsDateGetTime (headersGet c.headers swCachedDate))).gt
        ((API_CACHE_EXPIRY_DAYS : Int) * 24 * 60 * 60 * 1000) = true := by
      rw [hnone]
      simp only [jsDateGetTime, JsNum.subFrom, JsNum.gt, decide_eq_true_eq, sub_zero]
      simpa [apiExpiryMs] using hnow
    simp [handleApiRequest, storeGet_storeOpen, hc, hcond]
  · intro s hs hnan
    have hcond : (JsNum.subFrom now (jsDateGetTime (headersGet c.headers swCachedDate))).gt
        ((API_CACHE_EXPIRY_DAYS : Int) * 24 * 60 * 60 * 1000) = false := by
      rw [hs]
      simp [jsDateGetTime, hnan, JsNum.subFrom, JsNum.gt]
    simp [handleApiRequest, storeGet_storeOpen, hc, hcond]

/-- C3 amended witness: the missing-marker entry yields the 503 response; the
unparseable-marker entry is served back. -/
theorem stale_marker_missing_vs_unparseable_witness :
    (handleApiRequest FetchResult.failure 90000000
        [(RUNTIME_CACHE,
          [("https://open.er-api.com/v6/latest/USD",
            { status := 200, statusText := "OK", headers := [], body := "m" })])]
        { origin := "https://open.er-api.com", pathname := "/v6/latest/USD",
          search := "" }).1 = offlineResponse ∧
    (handleApiRequest FetchResult.failure 90000000
        [(RUNTIME_CACHE,
          [("https://open.er-api.com/v6/latest/USD",
            { status := 200, statusText := "OK",
              headers := [(swCachedDate, "garbage")], body := "u" })])]
        { origin := "https://open.er-api.com", pathname := "/v6/latest/USD",
          search := "" }).1 =
      { status := 200, statusText := "OK",
        headers := [(swCachedDate, "garbage")], body := "u" } :=
  ⟨(stale_marker_missing_vs_unparseable _ _ _
      { status := 200, statusText := "OK", headers := [], body := "m" }
      (by decide)).1 (by decide) (by decide),
   (stale_marker_missing_vs_unparseable _ _ _
      { status := 200, statusText := "OK",
        headers := [(swCachedDate, "garbage")], body := "u" }
      (by decide)).2 "garbage" (by decide) (by decide)⟩

/-- C4 counterexample: a same-origin (Static-class) non-image request that
misses the cache while the network is down makes the handler rethrow, so the
page does receive an uncaught network error — contradicting the claim for the
Static class. -/
theorem static_network_error_rejects :
    classify "https://example.com"
        { origin := "https://example.com", pathname := "/app.js", search := "",
          destination := "script" } = RequestClass.static ∧
    (fetchEvent "https://example.com" FetchResult.failure 0 []
        { origin := "https://example.com", pathname := "/app.js", search := "",
          destination := "script" }).1 = HandlerResult.rejected := by
  constructor
  · decide
  · decide

/-- C4 amended: API-class and Navigation-class handlers always resolve with a
response (real, cached, or synthetic); the Static-class handler resolves
except in exactly one case — cache miss, network failure, and a non-image
destination — where the failure propagates to the page. -/
theorem intercepted_get_totality (selfOrigin : String) (net : FetchResult)
    (now : Int) (store : CacheStore) (req : Request) :
    ((classify selfOrigin req = RequestClass.api ∨
        classify selfOrigin req = RequestClass.navigation) →
      ∃ r, (fetchEvent selfOrigin net now store req).1 = HandlerResult.resolved r) ∧
    (classify selfOrigin req = RequestClass.static →
      ((fetchEvent selfOrigin net now store req).1 = HandlerResult.rejected ↔
        cachesMatch store (Request.url req) = none ∧ net = FetchResult.failure ∧
          ¬ req.destination = "image")) := by
  constructor
  · rintro (hcl | hcl) <;> simp [fetchEvent, hcl]
  · intro hcl
    simp only [fetchEvent, hcl]
    cases hm : cachesMatch store (Request.url req) with
    | some c => simp [handleStaticRequest, hm]
    | none =>
      cases net with
      | success r =>
        cases hok : r.ok <;> simp [handleStaticRequest, hm, hok]
      | failure =>
        by_cases hd : req.destination = "image" <;>
          simp [handleStaticRequest, hm, hd]

/-- C4 amended witness: an API-class request with the network down resolves
(with the offline JSON), never rejecting. -/
theorem intercepted_get_totality_witness :
    ∃ r, (fetchEvent "https://app.example" FetchResult.failure 12345 []
        { origin := "https://open.er-api.com", pathname := "/v6/latest/USD",
          search := "" }).1 = HandlerResult.resolved r :=
  (intercepted_get_totality "https://app.example" FetchResult.failure 12345 []
      { origin := "https://open.er-api.com", pathname := "/v6/latest/USD",
        search := "" }).1 (Or.inl (by decide))

/-- C5: installation succeeds iff every core-manifest fetch resolves OK
(all-or-nothing, regardless of every best-effort outcome), and each
best-effort fetch is independent: an opaque response counts as a success and
is stored, while a fetch failure is caught and changes nothing. -/
theorem install_core_strict_best_effort_resilient
    (net : String → Bool → FetchResult) (store : CacheStore) :
    ((∀ f ∈ coreFiles, fetchOk (net f false) = true) →
        (installEvent net store).isSome = true) ∧
    ((∃ f ∈ coreFiles, fetchOk (net f false) = false) →
        installEvent net store = none) ∧
    (∀ s resource resp,
        net resource (resource.startsWith "http") = FetchResult.success resp →
        resp.rtype = "opaque" →
        bestEffortStep net s resource = storePut s CACHE_NAME resource resp) ∧
    (∀ s resource, net resource (resource.startsWith "http") = FetchResult.failure →
        bestEffortStep net s resource = s) := by
  refine ⟨?_, ?_, ?_, ?_⟩
  · intro h
    have hall : coreFiles.all (fun f => fetchOk (net f false)) = true :=
      List.all_eq_true.mpr h
    simp [installEvent, hall]
  · rintro ⟨f, hf, hfo⟩
    have hall : coreFiles.all (fun f => fetchOk (net f false)) = false := by
      apply List.all_eq_false.mpr
      exact ⟨f, hf, by simp [hfo]⟩
    simp [installEvent, hall]
  · intro s resource resp hnet hop
    simp [bestEffortStep, hnet, hop]
  · intro s resource hnet
    simp [bestEffortStep, hnet]

/-- C5 witness: Scenario C at concrete oracles — every fetch OK installs; one
unreachable core file aborts installation even though every best-effort fetch
succeeds. -/
theorem install_core_strict_best_effort_resilient_witness :
    (installEvent
        (fun _ _ => FetchResult.success
          { status := 200, statusText := "OK", headers := [], body := "x" })
        []).isSome = true ∧
    installEvent
        (fun u _ => if u == "/index.html" then FetchResult.failure
          else FetchResult.success
            { status := 200, statusText := "OK", headers := [], body := "x" })
        [] = none :=
  ⟨(install_core_strict_best_effort_resilient _ _).1 (by decide),
   (install_core_strict_best_effort_resilient _ _).2.1
     ⟨"/index.html", by decide, by decide⟩⟩

/-- C6 counterexample: with one old generation whose deletion rejects, the
activate handler still completes (the error is caught) but `clients.claim()`
is skipped — it is chained after the deletions and before the catch — so open
clients are NOT claimed, contradicting the claim. -/
theorem delete_failure_skips_claim :
    (activateEvent (fun _ => false) [("currency-converter-pro-v2", [])]).claimed = false ∧
    (activateEvent (fun _ => false) [("currency-converter-pro-v2", [])]).completed = true := by
  constructor
  · decide
  · decide

/-- C6 amended: a failed old-generation deletion never makes the activate
handler reject (the catch swallows it), but `clients.claim()` runs iff every
old-generation deletion succeeds. -/
theorem activation_completes_claim_iff_deletes (delOk : String → Bool)
    (store : CacheStore) :
    (activateEvent delOk store).completed = true ∧
    ((activateEvent delOk store).claimed = true ↔
      ∀ n ∈ (storeKeys store).filter (fun n => n != CACHE_NAME && n != RUNTIME_CACHE),
        delOk n = true) := by
  refine ⟨rfl, ?_⟩
  simp only [activateEvent, List.all_eq_true, List.mem_filter, Bool.and_eq_true,
    bne_iff_ne, ne_eq, and_imp]

/-- C6 amended witness: when every deletion succeeds, clients are claimed. -/
theorem activation_completes_claim_iff_deletes_witness :
    (activateEvent (fun _ => true) [("stale-generation", [])]).claimed = true :=
  (activation_completes_claim_iff_deletes (fun _ => true) _).2.mpr (fun _ _ => rfl)

/-- C8: issuing `CLEAR_CACHE` twice in a row (with every platform operation
fulfilling) leaves zero cache entries after each invocation and posts a
`CACHE_CLEARED` notification to every open client after each invocation. -/
theorem clear_cache_idempotent (store : CacheStore) (clients : List Nat) :
    (clearCache false (fun _ => true) store clients).store = [] ∧
    (clearCache false (fun _ => true)
        (clearCache false (fun _ => true) store clients).store clients).store = [] ∧
    (clearCache false (fun _ => true) store clients).messages =
      clients.map (fun c => { dest := c, mtype := "CACHE_CLEARED" }) ∧
    (clearCache false (fun _ => true)
        (clearCache false (fun _ => true) store clients).store clients).messages =
      clients.map (fun c => { dest := c, mtype := "CACHE_CLEARED" }) := by
  have key : ∀ (s : CacheStore), clearCacheTry false (fun _ => true) s clients =
      ([], clients.map (fun c => { dest := c, mtype := "CACHE_CLEARED" }), false) := by
    intro s
    have hfold : List.foldl (fun s n => storeDelete s n) s (storeKeys s) = [] := by
      have h := foldl_delete_nil (fun _ => true) (fun _ => rfl) (storeKeys s) s
        (fun p hp => List.mem_map_of_mem _ hp)
      simpa using h
    simp [clearCacheTry, hfold]
  simp [clearCache, key]

/-- C9: on a Static-class cache miss with a resolved network response, the
response is returned to the caller and written into the static generation iff
it is OK; in particular an opaque response (status 0) or any non-OK response
leaves the cache store unchanged. -/
theorem static_miss_caches_iff_ok (r : Response) (store : CacheStore)
    (req : Request)
    (hmiss : cachesMatch store (Request.url req) = none) :
    (handleStaticRequest (FetchResult.success r) store req).1 =
      HandlerResult.resolved r ∧
    (handleStaticRequest (FetchResult.success r) store req).2 =
      (if r.ok then storePut store CACHE_NAME (Request.url req) r else store) ∧
    (r.rtype = "opaque" → r.status = 0 →
      (handleStaticRequest (FetchResult.success r) store req).2 = store) := by
  refine ⟨?_, ?_, ?_⟩
  · cases hok : r.ok <;> simp [handleStaticRequest, hmiss, hok]
  · cases hok : r.ok <;> simp [handleStaticRequest, hmiss, hok]
  · intro _ hst
    have hok : r.ok = false := by simp [Response.ok, hst]
    simp [handleStaticRequest, hmiss, hok]

/-- C9 witness: a concrete opaque response on a cache miss is returned but
leaves the store unchanged. -/
theorem static_miss_caches_iff_ok_witness :
    (handleStaticRequest
        (FetchResult.success
          { status := 0, statusText := "", headers := [], body := "",
            rtype := "opaque" })
        [] { origin := "https://cdn.jsdelivr.net", pathname := "/lib.css",
             search := "" }).2 = [] :=
  (static_miss_caches_iff_ok
    { status := 0, statusText := "", headers := [], body := "", rtype := "opaque" }
    [] { origin := "https://cdn.jsdelivr.net", pathname := "/lib.css", search := "" }
    rfl).2.2 rfl rfl

/-- C10: `clearCache` never rejects — every enumeration or deletion error is
caught and swallowed — and the `CACHE_CLEARED` notification goes out exactly
when enumeration succeeded and every generation deletion fulfilled. -/
theorem clear_cache_never_rejects (keysFail : Bool) (delOk : String → Bool)
    (store : CacheStore) (clients : List Nat) :
    (clearCache keysFail delOk store clients).rejected = false ∧
    (clearCache keysFail delOk store clients).messages =
      (if !keysFail && (storeKeys store).all delOk then
        clients.map (fun c => { dest := c, mtype := "CACHE_CLEARED" }) else []) := by
  refine ⟨rfl, ?_⟩
  cases keysFail with
  | true => simp [clearCache, clearCacheTry]
  | false =>
    cases hall : (storeKeys store).all delOk <;>
      simp [clearCache, clearCacheTry, hall]

end SW
